import Mathlib

/-
Verification of the diet-tracker application (src/app.py) against its
specification. The worksheets of the remote tabular store are modelled as
Lean lists; numeric cells are modelled as rationals (the idealisation of the
floating-point values the program manipulates); fallible remote calls are
modelled with `Except`, where `Except.error` stands for a raised exception.
-/

set_option autoImplicit false

/-- A spreadsheet cell as seen through get_all_records: either text or a
number. The application only ever stores these two shapes. -/
inductive Cell where
  | str (s : String)
  | num (q : Rat)
  deriving DecidableEq, Repr

/-- One record returned by get_all_records: an association list from column
name (taken from the header row) to cell value. -/
abbrev SheetRecord := List (String × Cell)

/-- Dictionary lookup, as Python dict access / r.get(key). -/
def getCell (r : SheetRecord) (k : String) : Option Cell :=
  (r.find? (fun p => p.1 == k)).map (fun p => p.2)

/-- A row of the Goals worksheet (header at src/app.py line 48:
month_year, calorie_goal, protein_goal, created_at). The goal values come
from integer-valued number inputs. -/
structure GoalRow where
  month_year : String
  calorie_goal : Int
  protein_goal : Int
  created_at : String
  deriving DecidableEq, Repr

/-- A row of the Meals worksheet (header at src/app.py line 47). -/
structure MealRow where
  date : String
  time : String
  food_name : String
  grams : Rat
  protein_g : Rat
  carbs_g : Rat
  fat_g : Rat
  calories : Rat
  daily_calorie_goal : Int
  daily_protein_goal : Int
  notes : String
  deriving DecidableEq, Repr

/-- A row of the Daily_Notes worksheet (header at src/app.py line 49). -/
structure NoteRow where
  date : String
  note : String
  created_at : String
  deriving DecidableEq, Repr

/-- The three logical stores of the application. -/
structure AppState where
  meals : List MealRow
  goals : List GoalRow
  notes : List NoteRow
  deriving DecidableEq, Repr

/-- A rendered user-facing banner (st.success / st.error / st.warning /
st.info). -/
inductive UiMsg where
  | success (s : String)
  | error (s : String)
  | warning (s : String)
  | info (s : String)
  deriving DecidableEq, Repr

/-- Python str.strip() with no argument: remove whitespace characters from
both ends of the string. -/
def pyStrip (s : String) : String :=
  String.mk (((s.data.dropWhile Char.isWhitespace).reverse.dropWhile
    Char.isWhitespace).reverse)

/-- Round half to even (the rounding of Python round), on rationals. -/
def roundHalfEven (x : Rat) : Int :=
  if Int.fract x < 1 / 2 then ⌊x⌋
  else if 1 / 2 < Int.fract x then ⌊x⌋ + 1
  else if ⌊x⌋ % 2 = 0 then ⌊x⌋ else ⌊x⌋ + 1

/-- Python round(x, 1): round to one decimal place, half to even. -/
def round1 (x : Rat) : Rat :=
  (roundHalfEven (x * 10) : Rat) / 10

/-- The meal row built by the add_btn handler (src/app.py lines 110-122):
date and time formatted as strings, grams / protein / carbs / fat / calories
rounded to 1 decimal place, goal snapshots taken verbatim from the two goal
input widgets, notes verbatim. -/
def buildMealRow (entry_date entry_time food_item : String)
    (qty protein carbs fat calories : Rat)
    (calorie_goal_input protein_goal_input : Int)
    (entry_notes : String) : MealRow :=
  { date := entry_date
    time := entry_time
    food_name := food_item
    grams := round1 qty
    protein_g := round1 protein
    carbs_g := round1 carbs
    fat_g := round1 fat
    calories := round1 calories
    daily_calorie_goal := calorie_goal_input
    daily_protein_goal := protein_goal_input
    notes := entry_notes }

/-- How a MealRow appears when read back through get_all_records: the cells
zipped with the declared Meals header (src/app.py line 47). -/
def MealRow.toRecord (m : MealRow) : SheetRecord :=
  [("date", Cell.str m.date),
   ("time", Cell.str m.time),
   ("food_name", Cell.str m.food_name),
   ("grams", Cell.num m.grams),
   ("protein_g", Cell.num m.protein_g),
   ("carbs_g", Cell.num m.carbs_g),
   ("fat_g", Cell.num m.fat_g),
   ("calories", Cell.num m.calories),
   ("daily_calorie_goal", Cell.num (m.daily_calorie_goal : Rat)),
   ("daily_protein_goal", Cell.num (m.daily_protein_goal : Rat)),
   ("notes", Cell.str m.notes)]

/-- upsert_goal (src/app.py lines 87-96): linear scan of the goal records in
sheet order; the first record whose month_year equals the label has its
cells B (calorie_goal), C (protein_goal) and D (created_at) overwritten and
the function returns "updated"; if no record matches, a fresh row is
appended and the function returns "created". -/
def upsert_goal (t : List GoalRow) (month_label : String) (cal_goal prot_goal : Int)
    (now : String) : List GoalRow × String :=
  match t with
  | [] => ([⟨month_label, cal_goal, prot_goal, now⟩], "created")
  | r :: rs =>
    if r.month_year = month_label then
      ({ r with calorie_goal := cal_goal, protein_goal := prot_goal, created_at := now } :: rs,
       "updated")
    else
      let rest := upsert_goal rs month_label cal_goal prot_goal now
      (r :: rest.1, rest.2)

/-- The set_goal_btn handler (src/app.py lines 98-100). The remote cell
updates and append inside upsert_goal may raise; the handler wraps them in
no try/except, so writeResult carries either the returned string or the
escaped exception. An Except.error output is an exception leaving the
handler uncaught. -/
def set_goal_handler (month_label : String) (writeResult : Except String String) :
    Except String UiMsg :=
  match writeResult with
  | Except.ok result => Except.ok (UiMsg.success ("Goal " ++ result ++ " for " ++ month_label))
  | Except.error e => Except.error e

/-- The add_btn handler viewed through its remote call (src/app.py lines
106-128): empty food name is rejected locally with a warning; otherwise the
append is attempted and any exception it raises is caught by the
try/except and rendered with st.error. -/
def add_btn_handler (food_item : String) (appendResult : Except String Unit) :
    Except String UiMsg :=
  if food_item = "" then Except.ok (UiMsg.warning "Please enter a food name.")
  else
    match appendResult with
    | Except.ok _ => Except.ok (UiMsg.success ("Saved: " ++ food_item))
    | Except.error e => Except.ok (UiMsg.error ("Save failed: " ++ e))

/-- The Save Daily Note handler viewed through its remote call (src/app.py
lines 181-189): text empty after stripping whitespace is rejected locally
with a warning; otherwise the append is attempted and any exception is
caught and rendered with st.error. -/
def save_note_handler (daily_note_text : String) (appendResult : Except String Unit) :
    Except String UiMsg :=
  if pyStrip daily_note_text = "" then Except.ok (UiMsg.warning "Note is empty.")
  else
    match appendResult with
    | Except.ok _ => Except.ok (UiMsg.success ("Note saved."))
    | Except.error e => Except.ok (UiMsg.error ("Failed to save note: " ++ e))

/-- The add_btn handler as a transition on the stores, on the run where the
remote append succeeds (src/app.py lines 106-128): reject empty food names
locally with no write, otherwise append exactly the built row to Meals. -/
def add_food_action (st : AppState) (entry_date entry_time food_item : String)
    (qty protein carbs fat calories : Rat)
    (calorie_goal_input protein_goal_input : Int)
    (entry_notes : String) : AppState × UiMsg :=
  if food_item = "" then (st, UiMsg.warning "Please enter a food name.")
  else
    ({ st with meals := st.meals ++
        [buildMealRow entry_date entry_time food_item qty protein carbs fat calories
          calorie_goal_input protein_goal_input entry_notes] },
     UiMsg.success ("Saved: " ++ food_item))

/-- The Save Daily Note handler as a transition on the stores, on the run
where the remote append succeeds (src/app.py lines 181-189). -/
def save_note_action (st : AppState) (note_date daily_note_text now : String) :
    AppState × UiMsg :=
  if pyStrip daily_note_text = "" then (st, UiMsg.warning "Note is empty.")
  else
    ({ st with notes := st.notes ++ [⟨note_date, daily_note_text, now⟩] },
     UiMsg.success "Note saved.")

/-- The meals fetch of the daily summary (src/app.py lines 134-139): the
try/except catches a failing get_all_records, renders the failure with
st.error, and degrades meals_df to an empty frame. -/
def fetchMeals (fetch : Except String (List SheetRecord)) :
    List SheetRecord × List UiMsg :=
  match fetch with
  | Except.ok rows => (rows, [])
  | Except.error e => ([], [UiMsg.error ("Failed to fetch meals: " ++ e)])

/-- The date filter of the daily summary (src/app.py line 145):
meals_df[meals_df["date"] == day_str]. A record whose date cell is missing
or non-textual never equals the formatted date string. -/
def filterByDate (rows : List SheetRecord) (day_str : String) : List SheetRecord :=
  rows.filter (fun r =>
    match getCell r "date" with
    | some (Cell.str s) => s == day_str
    | _ => false)

/-- df[col].astype(float) on one cell: a numeric cell converts, a text cell
raises. -/
def cellToFloat : Cell → Except String Rat
  | Cell.num q => Except.ok q
  | Cell.str s => Except.error ("could not convert string to float: " ++ s)

/-- df[col].astype(float).sum() over a record list. Pandas builds the frame
from the union of the record keys, so a column name carried by no record at
all raises a KeyError; records lacking the key individually contribute NaN,
which .sum() skips. -/
def sumCol (rows : List SheetRecord) (col : String) : Except String Rat :=
  if rows.any (fun r => (getCell r col).isSome) then
    rows.foldl
      (fun acc r =>
        match acc, getCell r col with
        | Except.error e, _ => Except.error e
        | Except.ok a, none => Except.ok a
        | Except.ok a, some c =>
          match cellToFloat c with
          | Except.ok v => Except.ok (a + v)
          | Except.error e => Except.error e)
      (Except.ok 0)
  else Except.error ("KeyError: " ++ col)

/-- The five column sums of the daily summary. -/
structure DailySums where
  sum_cal : Rat
  sum_prot : Rat
  sum_carbs : Rat
  sum_fat : Rat
  sum_fiber : Rat
  deriving DecidableEq, Repr

/-- Outcome of the daily-summary view, short of the goal comparison. -/
inductive SummaryState where
  | noFoodEntries
  | noEntriesForDate
  | computed (s : DailySums)
  deriving DecidableEq, Repr

/-- The daily summary computation (src/app.py lines 134-153): fetch (soft
failing to empty), empty checks, date filter, then the five column sums,
reading the column names the source spells at lines 149-153:
calories_kcal, protein_g, carbs_g, fat_g, fiber_g. An Except.error output
is an uncaught exception from the summation block. -/
def dailySummary (fetch : Except String (List SheetRecord)) (day_str : String) :
    Except String SummaryState :=
  let meals := (fetchMeals fetch).1
  if meals.isEmpty then Except.ok SummaryState.noFoodEntries
  else
    let df_day := filterByDate meals day_str
    if df_day.isEmpty then Except.ok SummaryState.noEntriesForDate
    else
      match sumCol df_day "calories_kcal", sumCol df_day "protein_g",
            sumCol df_day "carbs_g", sumCol df_day "fat_g",
            sumCol df_day "fiber_g" with
      | Except.ok c, Except.ok p, Except.ok cb, Except.ok f, Except.ok fb =>
        Except.ok (SummaryState.computed ⟨c, p, cb, f, fb⟩)
      | Except.error e, _, _, _, _ => Except.error e
      | _, Except.error e, _, _, _ => Except.error e
      | _, _, Except.error e, _, _ => Except.error e
      | _, _, _, Except.error e, _ => Except.error e
      | _, _, _, _, Except.error e => Except.error e

/-- The calorie flag (src/app.py line 168): success when the sum is at most
the goal, otherwise flagged as exceeded. -/
def cal_ok (sum_cal cal_goal : Rat) : String :=
  if sum_cal ≤ cal_goal then "✅" else "⚠️ Exceeded"

/-- The protein flag (src/app.py line 169): success when the sum is at
least the goal, otherwise flagged as low. -/
def prot_ok (sum_prot prot_goal : Rat) : String :=
  if prot_goal ≤ sum_prot then "✅" else "⚠️ Low"

/-- The goal lookup of the daily summary (src/app.py line 163): first goal
record whose month_year equals the month label, if any. -/
def find_goal (goals : List GoalRow) (month_label : String) : Option GoalRow :=
  goals.find? (fun g => g.month_year == month_label)

/-- Outcome of the goal-comparison block of the daily summary. -/
inductive GoalCheck where
  | noGoal
  | flags (cal prot : String)
  deriving DecidableEq, Repr

/-- The goal-comparison block (src/app.py lines 161-172): look up the goal
row for the month; with a goal, emit the two flags computed from the sums
and the float conversions of the stored goals; without one, report that no
goal is set. -/
def goal_check (goals : List GoalRow) (month_label : String)
    (sum_cal sum_prot : Rat) : GoalCheck :=
  match find_goal goals month_label with
  | some g => GoalCheck.flags (cal_ok sum_cal (g.calorie_goal : Rat))
      (prot_ok sum_prot (g.protein_goal : Rat))
  | none => GoalCheck.noGoal

/-- A worksheet as raw rows of text cells, for the initialization model. -/
abbrev Worksheet := List (List String)

/-- The spreadsheet: named worksheets in order. -/
abbrev Spreadsheet := List (String × Worksheet)

/-- ensure_worksheet (src/app.py lines 34-43): fetching the worksheet by
name either succeeds (no write at all) or raises WorksheetNotFound, in
which case a fresh worksheet is added and the header row appended to it.
The Bool records whether the create-and-write-header branch ran. -/
def ensure_worksheet (sp : Spreadsheet) (name : String) (header : List String) :
    Spreadsheet × Bool :=
  match sp.find? (fun p => p.1 == name) with
  | some _ => (sp, false)
  | none => (sp ++ [(name, [header])], true)

/-- Number of copies of the header row in the worksheet of the given name
(zero when the worksheet does not exist). -/
def countHeaderRows (sp : Spreadsheet) (name : String) (header : List String) : Nat :=
  match sp.find? (fun p => p.1 == name) with
  | some p => p.2.countP (fun row => row == header)
  | none => 0

/-- Meal record with calories 100.4 and protein 10.25 under the declared
Meals header, dated 2026-01-15. -/
def recA : SheetRecord :=
  (MealRow.mk "2026-01-15" "08:00:00" "Oats" 50 (41 / 4 : Rat) 30 5 (502 / 5 : Rat) 1700 80 "").toRecord

/-- Meal record with calories 50.0 and protein 5.0 under the declared Meals
header, dated 2026-01-15. -/
def recB : SheetRecord :=
  (MealRow.mk "2026-01-15" "13:00:00" "Rice" 100 (5 : Rat) 20 2 (50 : Rat) 1700 80 "").toRecord

/-- Scanning a goal table with no matching month label appends the new row
and reports created. -/
theorem upsert_goal_not_mem (t : List GoalRow) (label : String) (cal prot : Int)
    (now : String) (h : ∀ s ∈ t, s.month_year ≠ label) :
    upsert_goal t label cal prot now = (t ++ [⟨label, cal, prot, now⟩], "created") := by
  induction t with
  | nil => simp [upsert_goal]
  | cons r rs ih =>
    have hr : r.month_year ≠ label := h r (List.mem_cons_self r rs)
    have hrs : ∀ s ∈ rs, s.month_year ≠ label := fun s hs => h s (List.mem_cons_of_mem r hs)
    simp [upsert_goal, hr, ih hrs]

/-- Scanning a goal table whose first matching row is r updates exactly r in
place and reports updated. -/
theorem upsert_goal_first_match (pre : List GoalRow) (r : GoalRow) (post : List GoalRow)
    (label : String) (cal prot : Int) (now : String)
    (hpre : ∀ s ∈ pre, s.month_year ≠ label) (hr : r.month_year = label) :
    upsert_goal (pre ++ r :: post) label cal prot now
      = (pre ++ { r with calorie_goal := cal, protein_goal := prot, created_at := now } :: post,
         "updated") := by
  induction pre with
  | nil => simp [upsert_goal, hr]
  | cons p ps ih =>
    have hp : p.month_year ≠ label := hpre p (List.mem_cons_self p ps)
    have hps : ∀ s ∈ ps, s.month_year ≠ label := fun s hs => hpre s (List.mem_cons_of_mem p hs)
    simp [upsert_goal, hp, ih hps]

/-- A worksheet appended under a name is found by a later lookup of that
name. -/
theorem find_appended_worksheet (sp : Spreadsheet) (name : String) (ws : Worksheet) :
    ((sp ++ [(name, ws)]).find? (fun p => p.1 == name)).isSome := by
  induction sp with
  | nil => simp [List.find?]
  | cons a l ih =>
    by_cases h : a.1 == name
    · simp [List.find?, h]
    · simp [List.find?, h, ih]

/-- When the worksheet exists, ensure_worksheet performs no write. -/
theorem ensure_worksheet_exists (sp : Spreadsheet) (name : String) (header : List String)
    (h : (sp.find? (fun p => p.1 == name)).isSome) :
    ensure_worksheet sp name header = (sp, false) := by
  unfold ensure_worksheet
  cases hfind : sp.find? (fun p => p.1 == name) with
  | none => rw [hfind] at h; simp at h
  | some w => rfl

/-- When the worksheet is missing, ensure_worksheet creates it with the
header as its single row. -/
theorem ensure_worksheet_missing (sp : Spreadsheet) (name : String) (header : List String)
    (h : sp.find? (fun p => p.1 == name) = none) :
    ensure_worksheet sp name header = (sp ++ [(name, [header])], true) := by
  unfold ensure_worksheet
  rw [h]

/-- Round half to even lands within half a unit of its argument. -/
theorem roundHalfEven_close (y : Rat) : |y - (roundHalfEven y : Rat)| ≤ 1 / 2 := by
  have hf : y - (⌊y⌋ : Rat) = Int.fract y := Int.self_sub_floor y
  have h0 : 0 ≤ Int.fract y := Int.fract_nonneg y
  have h1 : Int.fract y < 1 := Int.fract_lt_one y
  unfold roundHalfEven
  split_ifs with ha hb hc
  · rw [abs_le]
    constructor <;> linarith
  · rw [abs_le]
    push_cast
    constructor <;> linarith
  · have hb2 : Int.fract y ≤ 1 / 2 := not_lt.mp hb
    rw [abs_le]
    constructor <;> linarith
  · have ha2 : 1 / 2 ≤ Int.fract y := not_lt.mp ha
    have hb2 : Int.fract y ≤ 1 / 2 := not_lt.mp hb
    rw [abs_le]
    push_cast
    constructor <;> linarith

/-- round1 keeps its argument within a twentieth. -/
theorem round1_close (x : Rat) : |x - round1 x| ≤ 1 / 20 := by
  have h := roundHalfEven_close (x * 10)
  have h10 : (0 : Rat) < 10 := by norm_num
  have hx : x - round1 x = (x * 10 - (roundHalfEven (x * 10) : Rat)) / 10 := by
    rw [round1]; ring
  rw [hx, abs_div, abs_of_pos h10]
  have h2 := (div_le_div_iff_of_pos_right h10).mpr h
  linarith [h2]

/-- C1: the daily-summary computation filters the meal records by exact
date match, but its summation block reads the columns calories_kcal and
fiber_g, neither of which exists under the Meals header the application
itself writes. On the spec example (a date whose two matching rows carry
calories 100.4 and 50.0 and protein 10.25 and 5.0 under the declared
header) the filter keeps both rows, yet the calories summation raises a
KeyError instead of producing 150.4; the intended columns, calories and
protein_g, would have summed to 150.4 and 15.25 as the claim states. -/
theorem daily_summary_schema_drift_c1 :
    filterByDate [recA, recB] "2026-01-15" = [recA, recB]
    ∧ dailySummary (Except.ok [recA, recB]) "2026-01-15"
        = Except.error "KeyError: calories_kcal"
    ∧ sumCol [recA, recB] "calories" = Except.ok (752 / 5 : Rat)
    ∧ sumCol [recA, recB] "protein_g" = Except.ok (61 / 4 : Rat)
    ∧ sumCol [recA, recB] "calories_kcal" = Except.error "KeyError: calories_kcal"
    ∧ sumCol [recA, recB] "fiber_g" = Except.error "KeyError: fiber_g" := by
  refine ⟨rfl, ?_, ?_, ?_, rfl, rfl⟩
  · simp [dailySummary, fetchMeals, filterByDate, sumCol, getCell, recA, recB,
      MealRow.toRecord, cellToFloat]
  · simp [sumCol, getCell, recA, recB, MealRow.toRecord, cellToFloat]
    norm_num
  · simp [sumCol, getCell, recA, recB, MealRow.toRecord, cellToFloat]
    norm_num

/-- C2 counterexample: a failing remote write inside the goal upsert leaves
the set_goal_btn handler as an uncaught exception, so not every write-path
failure is surfaced as an error message. -/
theorem set_goal_uncaught_c2_cex :
    set_goal_handler "2026-10" (Except.error "APIError") = Except.error "APIError" := rfl

/-- C2 (amended): the meal-append and note-append handlers catch every
remote failure and render it as an error banner, but the goal-upsert
handler has no try/except, so a failing goal write propagates uncaught. -/
theorem write_error_surfacing_c2 :
    (∀ (food : String) (res : Except String Unit),
       ∃ m, add_btn_handler food res = Except.ok m)
    ∧ (∀ (text : String) (res : Except String Unit),
       ∃ m, save_note_handler text res = Except.ok m)
    ∧ (∀ (food e : String), food ≠ "" →
       add_btn_handler food (Except.error e)
         = Except.ok (UiMsg.error ("Save failed: " ++ e)))
    ∧ (∀ (text e : String), pyStrip text ≠ "" →
       save_note_handler text (Except.error e)
         = Except.ok (UiMsg.error ("Failed to save note: " ++ e)))
    ∧ (∀ (label e : String),
       set_goal_handler label (Except.error e) = Except.error e) := by
  refine ⟨?_, ?_, ?_, ?_, fun label e => rfl⟩
  · intro food res
    unfold add_btn_handler
    split_ifs
    · exact ⟨_, rfl⟩
    · cases res <;> exact ⟨_, rfl⟩
  · intro text res
    unfold save_note_handler
    split_ifs
    · exact ⟨_, rfl⟩
    · cases res <;> exact ⟨_, rfl⟩
  · intro food e hfood
    simp [add_btn_handler, hfood]
  · intro text e htext
    simp [save_note_handler, htext]

/-- C2 witness: the amended statement at concrete inputs. -/
theorem write_error_surfacing_c2_witness :
    add_btn_handler "Oats" (Except.error "boom")
      = Except.ok (UiMsg.error ("Save failed: " ++ "boom")) :=
  write_error_surfacing_c2.2.2.1 "Oats" "boom" (by decide)

/-- C3: upsert_goal linear-scans the goal rows in table order; the first
row whose month_year equals the target label is updated in place with the
new calorie_goal, protein_goal and timestamp (its month_year kept, later
duplicates untouched) and the function reports the update; when no row
matches, a new row with the target values and timestamp is appended and
the function reports the creation. -/
theorem upsert_goal_scan_c3 :
    (∀ (pre : List GoalRow) (r : GoalRow) (post : List GoalRow) (label : String)
       (cal prot : Int) (now : String),
       (∀ s ∈ pre, s.month_year ≠ label) → r.month_year = label →
       upsert_goal (pre ++ r :: post) label cal prot now
         = (pre ++
             { r with calorie_goal := cal, protein_goal := prot, created_at := now }
             :: post, "updated"))
    ∧ (∀ (t : List GoalRow) (label : String) (cal prot : Int) (now : String),
       (∀ s ∈ t, s.month_year ≠ label) →
       upsert_goal t label cal prot now = (t ++ [⟨label, cal, prot, now⟩], "created")) :=
  ⟨upsert_goal_first_match, upsert_goal_not_mem⟩

/-- C3 witness: with a duplicate label downstream, only the first matching
row is rewritten and the call reports the update. -/
theorem upsert_goal_scan_c3_witness :
    upsert_goal [⟨"2026-09", 1600, 70, "t0"⟩, ⟨"2026-10", 1700, 80, "t1"⟩,
        ⟨"2026-10", 1500, 60, "t2"⟩] "2026-10" 1800 90 "t3"
      = ([⟨"2026-09", 1600, 70, "t0"⟩, ⟨"2026-10", 1800, 90, "t3"⟩,
          ⟨"2026-10", 1500, 60, "t2"⟩], "updated") := by
  have h := upsert_goal_scan_c3.1 [⟨"2026-09", 1600, 70, "t0"⟩] ⟨"2026-10", 1700, 80, "t1"⟩
    [⟨"2026-10", 1500, 60, "t2"⟩] "2026-10" 1800 90 "t3" (by decide) rfl
  simpa using h

/-- C4: on a goal table whose first match for the label is row r, the
upsert keeps the row count, keeps every other row and r's own month_year,
and rewrites exactly r's calorie_goal, protein_goal and created_at; on a
table with no match it appends one row and keeps the existing prefix
unchanged. -/
theorem upsert_goal_frame_c4 :
    (∀ (pre : List GoalRow) (r : GoalRow) (post : List GoalRow) (label : String)
       (cal prot : Int) (now : String),
       (∀ s ∈ pre, s.month_year ≠ label) → r.month_year = label →
       (upsert_goal (pre ++ r :: post) label cal prot now).1.length
           = (pre ++ r :: post).length
       ∧ ∃ r2 : GoalRow,
           (upsert_goal (pre ++ r :: post) label cal prot now).1 = pre ++ r2 :: post
           ∧ r2.month_year = r.month_year ∧ r2.calorie_goal = cal
           ∧ r2.protein_goal = prot ∧ r2.created_at = now)
    ∧ (∀ (t : List GoalRow) (label : String) (cal prot : Int) (now : String),
       (∀ s ∈ t, s.month_year ≠ label) →
       (upsert_goal t label cal prot now).1.length = t.length + 1
       ∧ (upsert_goal t label cal prot now).1.take t.length = t) := by
  constructor
  · intro pre r post label cal prot now hpre hr
    rw [upsert_goal_first_match pre r post label cal prot now hpre hr]
    refine ⟨by simp, ⟨_, rfl, rfl, rfl, rfl, rfl⟩⟩
  · intro t label cal prot now h
    rw [upsert_goal_not_mem t label cal prot now h]
    exact ⟨by simp, List.take_left t _⟩

/-- C4 witness: frame conditions at a concrete two-row table. -/
theorem upsert_goal_frame_c4_witness :
    (upsert_goal [⟨"2026-09", 1600, 70, "t0"⟩] "2026-10" 1800 90 "t1").1.length
        = [(⟨"2026-09", 1600, 70, "t0"⟩ : GoalRow)].length + 1
    ∧ (upsert_goal [⟨"2026-09", 1600, 70, "t0"⟩] "2026-10" 1800 90 "t1").1.take 1
        = [⟨"2026-09", 1600, 70, "t0"⟩] :=
  upsert_goal_frame_c4.2 [⟨"2026-09", 1600, 70, "t0"⟩] "2026-10" 1800 90 "t1" (by decide)

/-- C5: when the goal lookup finds a MonthlyGoal row for the month, the
summary renders the two flags; the calorie flag is the exceeded marker
exactly when the summed calories strictly exceed the goal (equality gives
the success marker), and the protein flag is the low marker exactly when
the summed protein is strictly below the goal (equality gives the success
marker). -/
theorem goal_flags_c5 (goals : List GoalRow) (label : String) (g : GoalRow)
    (hg : find_goal goals label = some g) (sum_cal sum_prot : Rat) :
    goal_check goals label sum_cal sum_prot
      = GoalCheck.flags (cal_ok sum_cal (g.calorie_goal : Rat))
          (prot_ok sum_prot (g.protein_goal : Rat))
    ∧ (cal_ok sum_cal (g.calorie_goal : Rat) = "⚠️ Exceeded"
        ↔ (g.calorie_goal : Rat) < sum_cal)
    ∧ (cal_ok sum_cal (g.calorie_goal : Rat) = "✅" ↔ sum_cal ≤ (g.calorie_goal : Rat))
    ∧ (prot_ok sum_prot (g.protein_goal : Rat) = "⚠️ Low"
        ↔ sum_prot < (g.protein_goal : Rat))
    ∧ (prot_ok sum_prot (g.protein_goal : Rat) = "✅"
        ↔ (g.protein_goal : Rat) ≤ sum_prot) := by
  refine ⟨by simp [goal_check, hg], ?_, ?_, ?_, ?_⟩
  · simp only [cal_ok]
    split_ifs with h
    · exact iff_of_false (by decide) (not_lt.mpr h)
    · exact iff_of_true rfl (not_le.mp h)
  · simp only [cal_ok]
    split_ifs with h
    · exact iff_of_true rfl h
    · exact iff_of_false (by decide) h
  · simp only [prot_ok]
    split_ifs with h
    · exact iff_of_false (by decide) (not_lt.mpr h)
    · exact iff_of_true rfl (not_le.mp h)
  · simp only [prot_ok]
    split_ifs with h
    · exact iff_of_true rfl h
    · exact iff_of_false (by decide) h

/-- C5 witness: the spec example month with calorie goal 1700 and protein
goal 80, at summed calories 1700 and summed protein 80. -/
theorem goal_flags_c5_witness :
    goal_check [⟨"2026-10", 1700, 80, "t0"⟩] "2026-10" 1700 80
      = GoalCheck.flags (cal_ok 1700 ((1700 : Int) : Rat))
          (prot_ok 80 ((80 : Int) : Rat)) :=
  (goal_flags_c5 [⟨"2026-10", 1700, 80, "t0"⟩] "2026-10" ⟨"2026-10", 1700, 80, "t0"⟩
    rfl 1700 80).1

/-- C6: an empty food name and a note that is empty after stripping
whitespace are rejected with a warning and leave the stores untouched; a
submission passing validation appends exactly one row to its table and
leaves the other stores unchanged. -/
theorem local_validation_c6 :
    (∀ (st : AppState) (d t : String) (qty pr cb ft cal : Rat) (cg pg : Int)
       (ns : String),
       add_food_action st d t "" qty pr cb ft cal cg pg ns
         = (st, UiMsg.warning "Please enter a food name."))
    ∧ (∀ (st : AppState) (d t food : String) (qty pr cb ft cal : Rat) (cg pg : Int)
       (ns : String), food ≠ "" →
       (add_food_action st d t food qty pr cb ft cal cg pg ns).1.meals.length
           = st.meals.length + 1
       ∧ (add_food_action st d t food qty pr cb ft cal cg pg ns).1.notes = st.notes
       ∧ (add_food_action st d t food qty pr cb ft cal cg pg ns).1.goals = st.goals)
    ∧ (∀ (st : AppState) (d text now : String), pyStrip text = "" →
       save_note_action st d text now = (st, UiMsg.warning "Note is empty."))
    ∧ (∀ (st : AppState) (d text now : String), pyStrip text ≠ "" →
       (save_note_action st d text now).1.notes.length = st.notes.length + 1
       ∧ (save_note_action st d text now).1.meals = st.meals
       ∧ (save_note_action st d text now).1.goals = st.goals) := by
  refine ⟨fun st d t qty pr cb ft cal cg pg ns => rfl, ?_, ?_, ?_⟩
  · intro st d t food qty pr cb ft cal cg pg ns hfood
    simp [add_food_action, hfood]
  · intro st d text now htext
    simp [save_note_action, htext]
  · intro st d text now htext
    simp [save_note_action, htext]

/-- C6 witness: the four validation outcomes at concrete submissions. -/
theorem local_validation_c6_witness :
    add_food_action ⟨[], [], []⟩ "2026-01-15" "08:00:00" "" 50 10 30 5 100 1700 80 ""
        = (⟨[], [], []⟩, UiMsg.warning "Please enter a food name.")
    ∧ (add_food_action ⟨[], [], []⟩ "2026-01-15" "08:00:00" "Oats" 50 10 30 5 100
        1700 80 "").1.meals.length = (⟨[], [], []⟩ : AppState).meals.length + 1
    ∧ save_note_action ⟨[], [], []⟩ "2026-01-15" "   " "t0"
        = (⟨[], [], []⟩, UiMsg.warning "Note is empty.")
    ∧ (save_note_action ⟨[], [], []⟩ "2026-01-15" " ate well " "t0").1.notes.length
        = (⟨[], [], []⟩ : AppState).notes.length + 1 :=
  ⟨local_validation_c6.1 ⟨[], [], []⟩ "2026-01-15" "08:00:00" 50 10 30 5 100 1700 80 "",
   (local_validation_c6.2.1 ⟨[], [], []⟩ "2026-01-15" "08:00:00" "Oats" 50 10 30 5 100
     1700 80 "" (by decide)).1,
   local_validation_c6.2.2.1 ⟨[], [], []⟩ "2026-01-15" "   " "t0" (by decide),
   (local_validation_c6.2.2.2 ⟨[], [], []⟩ "2026-01-15" " ate well " "t0" (by decide)).1⟩

/-- C7: table initialization is idempotent; when the worksheet already
exists the ensure routine performs no write, a second call after any call
is always a no-op, and two calls starting from an empty spreadsheet leave a
single worksheet carrying exactly one header row. -/
theorem ensure_worksheet_idempotent_c7 :
    (∀ (sp : Spreadsheet) (name : String) (header : List String),
       (sp.find? (fun p => p.1 == name)).isSome →
       ensure_worksheet sp name header = (sp, false))
    ∧ (∀ (sp : Spreadsheet) (name : String) (header : List String),
       ensure_worksheet (ensure_worksheet sp name header).1 name header
         = ((ensure_worksheet sp name header).1, false))
    ∧ (∀ (name : String) (header : List String),
       countHeaderRows
         (ensure_worksheet (ensure_worksheet ([] : Spreadsheet) name header).1
           name header).1 name header = 1) := by
  refine ⟨ensure_worksheet_exists, ?_, ?_⟩
  · intro sp name header
    cases hfind : sp.find? (fun p => p.1 == name) with
    | some w =>
      have h1 : ensure_worksheet sp name header = (sp, false) :=
        ensure_worksheet_exists sp name header (by rw [hfind]; rfl)
      rw [h1]
      exact ensure_worksheet_exists sp name header (by rw [hfind]; rfl)
    | none =>
      rw [ensure_worksheet_missing sp name header hfind]
      exact ensure_worksheet_exists _ name header (find_appended_worksheet sp name _)
  · intro name header
    simp only [ensure_worksheet, List.find?, List.nil_append, beq_self_eq_true,
      countHeaderRows, List.countP, List.countP.go]
    simp

/-- C7 witness: a spreadsheet already holding the worksheet is returned
unchanged with no write. -/
theorem ensure_worksheet_idempotent_c7_witness :
    ensure_worksheet [("Meals", [["date", "time"]])] "Meals" ["date", "time"]
      = ([("Meals", [["date", "time"]])], false) :=
  ensure_worksheet_idempotent_c7.1 [("Meals", [["date", "time"]])] "Meals"
    ["date", "time"] (by decide)

/-- C8: every persisted meal row carries the grams, protein, carbs, fat and
calories inputs rounded to one decimal place: each stored value is round1
of its input, an integer number of tenths within one twentieth of the
input. -/
theorem meal_rounding_c8 (d t food : String) (qty pr cb ft cal : Rat) (cg pg : Int)
    (ns : String) :
    ((buildMealRow d t food qty pr cb ft cal cg pg ns).grams = round1 qty
     ∧ (buildMealRow d t food qty pr cb ft cal cg pg ns).protein_g = round1 pr
     ∧ (buildMealRow d t food qty pr cb ft cal cg pg ns).carbs_g = round1 cb
     ∧ (buildMealRow d t food qty pr cb ft cal cg pg ns).fat_g = round1 ft
     ∧ (buildMealRow d t food qty pr cb ft cal cg pg ns).calories = round1 cal)
    ∧ ∀ x : Rat, (∃ n : Int, round1 x = (n : Rat) / 10) ∧ |x - round1 x| ≤ 1 / 20 :=
  ⟨⟨rfl, rfl, rfl, rfl, rfl⟩,
   fun x => ⟨⟨roundHalfEven (x * 10), rfl⟩, round1_close x⟩⟩

/-- C9: a failing meals fetch is caught and rendered as an error banner,
the dataset degrades to the empty frame, and the summary reports the
no-entries state instead of propagating the exception. -/
theorem read_soft_fail_c9 (e day_str : String) :
    fetchMeals (Except.error e) = ([], [UiMsg.error ("Failed to fetch meals: " ++ e)])
    ∧ dailySummary (Except.error e) day_str = Except.ok SummaryState.noFoodEntries :=
  ⟨rfl, rfl⟩

/-- C10: the add-food action writes the goal snapshot fields straight from
the goal input widgets: the appended row stores exactly the widget values,
the result does not depend on the Goal Table (which is left unread and
unchanged), and a concrete instance shows the stored MonthlyGoal for the
entry month differing from the persisted snapshot. -/
theorem goal_snapshot_c10 :
    (∀ (st : AppState) (d t food : String) (qty pr cb ft cal : Rat) (cg pg : Int)
       (ns : String), food ≠ "" →
       (add_food_action st d t food qty pr cb ft cal cg pg ns).1.meals
           = st.meals ++ [buildMealRow d t food qty pr cb ft cal cg pg ns]
       ∧ (add_food_action st d t food qty pr cb ft cal cg pg ns).1.goals = st.goals
       ∧ (buildMealRow d t food qty pr cb ft cal cg pg ns).daily_calorie_goal = cg
       ∧ (buildMealRow d t food qty pr cb ft cal cg pg ns).daily_protein_goal = pg)
    ∧ (∀ (st : AppState) (gs : List GoalRow) (d t food : String)
       (qty pr cb ft cal : Rat) (cg pg : Int) (ns : String),
       (add_food_action { st with goals := gs } d t food qty pr cb ft cal cg pg ns).1.meals
         = (add_food_action st d t food qty pr cb ft cal cg pg ns).1.meals)
    ∧ (find_goal [⟨"2026-01", 2000, 100, "t0"⟩] "2026-01"
         = some ⟨"2026-01", 2000, 100, "t0"⟩
       ∧ (buildMealRow "2026-01-15" "12:00:00" "Rice" 100 20 30 5 200 1700 80
           "").daily_calorie_goal = 1700
       ∧ (1700 : Int) ≠ 2000) := by
  refine ⟨?_, ?_, rfl, rfl, by decide⟩
  · intro st d t food qty pr cb ft cal cg pg ns hfood
    exact ⟨by simp [add_food_action, hfood], by simp [add_food_action, hfood], rfl, rfl⟩
  · intro st gs d t food qty pr cb ft cal cg pg ns
    by_cases hfood : food = ""
    · simp [add_food_action, hfood]
    · simp [add_food_action, hfood]

/-- C10 witness: the snapshot equations at a concrete submission. -/
theorem goal_snapshot_c10_witness :
    (add_food_action ⟨[], [⟨"2026-01", 2000, 100, "t0"⟩], []⟩ "2026-01-15" "12:00:00"
        "Rice" 100 20 30 5 200 1700 80 "").1.goals = [⟨"2026-01", 2000, 100, "t0"⟩] :=
  (goal_snapshot_c10.1 ⟨[], [⟨"2026-01", 2000, 100, "t0"⟩], []⟩ "2026-01-15" "12:00:00"
    "Rice" 100 20 30 5 200 1700 80 "" (by decide)).2.1
